import Mathlib

/-
  Verification of the trial-fleet control plane: a shallow embedding of
  `backend/main.py` (the `BatchManager` singleton, the `batch_monitor_task`
  reconciliation loop, the batch API handlers, the status query, the
  mission-log progress parser, the container CPU sampling, and the
  websocket `ConnectionManager`) and of `scripts/trial-vnc-proxy.py`
  (the host-routed VNC reverse proxy), together with theorems about the
  embedded operations.

  Trial identifiers are embedded as `ℤ` (Python integers are unbounded and
  ranges with `end < start` are representable).  Fallible computations
  (Python exceptions such as `ZeroDivisionError`, refused upstream
  connections) are embedded as `Option` or as explicit error constructors.
  Nondeterministic environment inputs (the Docker fleet listing, the
  success of `start_single_trial`, the wall clock) are passed as explicit
  parameters.
-/

/-- `list(range(s, e + 1))`: the ascending list of integers from `s` to `e`
inclusive; empty when `e < s`. -/
def rangeList (s e : ℤ) : List ℤ :=
  (List.range (e + 1 - s).toNat).map (fun i : ℕ => s + (i : ℤ))

/-- Python `round(q, 1)`: rounding to one decimal place, embedded on `ℚ`
(tie behaviour at half-way points is not load-bearing for any claim). -/
def round1 (q : ℚ) : ℚ := ((round (q * 10) : ℤ) : ℚ) / 10

/-- Division on which Python's `ZeroDivisionError` is made explicit. -/
def checkedDivQ (a b : ℤ) : Option ℚ :=
  if b = 0 then none else some ((a : ℚ) / (b : ℚ))

/-- A Python value used as a trial key.  The batch queues hold the
integers expanded from the range, but the monitor's classification pass
hands the mark operations the container-name *suffix string* instead
(`container["trial_id"]`, a `str`).  Equality is Python `==`: an integer
never equals a string, and two values of the same kind compare
componentwise. -/
inductive TrialKey
  | intId (n : ℤ)
  | strId (s : String)
deriving DecidableEq

/-- The `active_batch` dictionary built by `BatchManager.start_batch`;
`started_at` stands for the `datetime.now().isoformat()` string. -/
structure BatchMeta where
  start_trial : ℤ
  end_trial : ℤ
  concurrent : ℤ
  total : ℤ
  started_at : String
deriving DecidableEq

/-- The mutable fields of the `BatchManager` singleton.  The three queue
lists hold Python values (`TrialKey`): pending is populated with
integers, while completed/failed receive whatever value the caller of
the mark operations passes (integers from the dispatch paths, suffix
strings from the monitor's classification). -/
structure BatchState where
  active_batch : Option BatchMeta
  pending_trials : List TrialKey
  completed_trials : List TrialKey
  failed_trials : List TrialKey
  concurrent_limit : ℤ
  running : Bool
deriving DecidableEq

/-- `BatchManager.__init__`. -/
def BatchState.initial : BatchState :=
  { active_batch := none, pending_trials := [], completed_trials := [],
    failed_trials := [], concurrent_limit := 3, running := false }

namespace BatchManager

/-- `BatchManager.start_batch`: reset all queues and record the new batch
as active, with `pending_trials = list(range(start_trial, end_trial + 1))`. -/
def start_batch (start_trial end_trial concurrent : ℤ) (now : String)
    (st : BatchState) : BatchState :=
  { st with
    pending_trials := (rangeList start_trial end_trial).map TrialKey.intId,
    completed_trials := [],
    failed_trials := [],
    concurrent_limit := concurrent,
    active_batch := some
      { start_trial := start_trial, end_trial := end_trial,
        concurrent := concurrent,
        total := end_trial - start_trial + 1, started_at := now },
    running := true }

/-- `BatchManager.stop_batch`: cancel the active batch. -/
def stop_batch (st : BatchState) : BatchState :=
  { st with running := false, pending_trials := [], active_batch := none }

/-- `BatchManager.mark_completed`: drop the given value from pending
(`list.remove`, first occurrence, Python `==`) and append it to completed
if absent.  When the caller passes a suffix string, the pending check —
against a list of integers — is always false. -/
def mark_completed (trial_id : TrialKey) (st : BatchState) : BatchState :=
  { st with
    pending_trials :=
      if trial_id ∈ st.pending_trials then st.pending_trials.erase trial_id
      else st.pending_trials,
    completed_trials :=
      if trial_id ∈ st.completed_trials then st.completed_trials
      else st.completed_trials ++ [trial_id] }

/-- `BatchManager.mark_failed`: drop the given value from pending and
append it to failed if absent (same Python `==` semantics as
`mark_completed`). -/
def mark_failed (trial_id : TrialKey) (st : BatchState) : BatchState :=
  { st with
    pending_trials :=
      if trial_id ∈ st.pending_trials then st.pending_trials.erase trial_id
      else st.pending_trials,
    failed_trials :=
      if trial_id ∈ st.failed_trials then st.failed_trials
      else st.failed_trials ++ [trial_id] }

end BatchManager

/-- The full status dictionary `BatchManager.get_status` builds when a
batch is recorded. -/
structure StatusDoc where
  active : Bool
  batch : BatchMeta
  pending : ℕ
  pending_trials : List TrialKey
  completed : ℕ
  completed_trials : List TrialKey
  failed : ℕ
  failed_trials : List TrialKey
  progress : ℚ
deriving DecidableEq

/-- Result of `BatchManager.get_status`: the bare `{"active": False}`
document, a full document, or the `ZeroDivisionError` raised when the
recorded batch has `total = 0`. -/
inductive StatusResult
  | inactive
  | doc (d : StatusDoc)
  | divisionError
deriving DecidableEq

namespace BatchManager

/-- `BatchManager.get_status`: early return of `{"active": False}` when no
batch is recorded; otherwise the full document, whose `progress` field
divides by `active_batch["total"]` with no guard. -/
def get_status (st : BatchState) : StatusResult :=
  match st.active_batch with
  | none => .inactive
  | some b =>
    if b.total = 0 then .divisionError
    else .doc
      { active := st.running, batch := b,
        pending := st.pending_trials.length,
        pending_trials := st.pending_trials.take 10,
        completed := st.completed_trials.length,
        completed_trials := st.completed_trials,
        failed := st.failed_trials.length,
        failed_trials := st.failed_trials,
        progress := round1
          (((st.completed_trials.length + st.failed_trials.length : ℕ) : ℚ)
            / (b.total : ℚ) * 100) }

end BatchManager

/-- The `progress` field of a status result, when one is present. -/
def progressOf : StatusResult → Option ℚ
  | .doc d => some d.progress
  | _ => none

/-- Events pushed through `ConnectionManager.broadcast` by the batch code
paths (payloads beyond the trial id are omitted; they are not load-bearing
for any claim). -/
inductive Event
  | trial_started (trial_id : TrialKey)
  | batch_update
  | batch_complete
  | batch_cancelled
deriving DecidableEq

/-- One row of `get_simulation_containers()` as consumed by the batch
monitor: `trial_id` is the name-suffix *string*
(`container.name.replace("aquatic-trial-", "")`), alongside the backend
status string and whether a `*_samples.csv` artifact exists under the
trial's data directory. -/
structure ContainerInfo where
  trial_id : String
  status : String
  hasData : Bool
deriving DecidableEq

/-- `get_running_trial_count()` / the running-trials count of a fleet
listing. -/
def runningCount (env : List ContainerInfo) : ℕ :=
  (env.filter (fun c => c.status == "running")).length

/-- The classification pass of one `batch_monitor_task` cycle: every
container in `exited` status is marked completed when its data artifact
exists, failed otherwise.  The value handed to the mark operations is the
container-name suffix string (`container["trial_id"]`), not the parsed
integer, so against the integer pending queue the mark operations'
in-pending removal never fires. -/
def classifyExited (env : List ContainerInfo) (st : BatchState) : BatchState :=
  env.foldl
    (fun s c =>
      if c.status == "exited" then
        if c.hasData then BatchManager.mark_completed (TrialKey.strId c.trial_id) s
        else BatchManager.mark_failed (TrialKey.strId c.trial_id) s
      else s) st

/-- The capacity-refill loop of one `batch_monitor_task` cycle.  `ok t`
says whether `start_single_trial t` succeeds; on success the head of
pending is popped and a `trial_started` event broadcast, on failure
`mark_failed` removes the head from pending and records it failed.
Returns the remaining pending queue, the failed list, the final running
count and the events broadcast along the way. -/
def monitorDispatch (ok : TrialKey → Bool) (limit : ℤ) :
    ℕ → List TrialKey → List TrialKey → List TrialKey × List TrialKey × ℕ × List Event
  | rc, [], failed => ([], failed, rc, [])
  | rc, t :: rest, failed =>
    if (rc : ℤ) < limit then
      if ok t then
        let r := monitorDispatch ok limit (rc + 1) rest failed
        (r.1, r.2.1, r.2.2.1, Event.trial_started t :: r.2.2.2)
      else
        monitorDispatch ok limit rc rest
          (if t ∈ failed then failed else failed ++ [t])
    else (t :: rest, failed, rc, [])

/-- The `while` guard of `batch_monitor_task`:
`batch_manager.running and (pending_trials or get_running_trial_count() > 0)`. -/
def monitorGate (st : BatchState) (env : List ContainerInfo) : Bool :=
  st.running && (!st.pending_trials.isEmpty || decide (0 < runningCount env))

/-- One full cycle of the `batch_monitor_task` body: classify exited
containers, refill capacity, broadcast `batch_update`, and — when pending
is empty and the running count is zero — clear the running flag, broadcast
`batch_complete` and `break`.  The returned `Bool` is `false` exactly when
the loop breaks. -/
def monitorCycle (ok : TrialKey → Bool) (env : List ContainerInfo) (st : BatchState) :
    BatchState × List Event × Bool :=
  let rc := runningCount env
  let st1 := classifyExited env st
  let d := monitorDispatch ok st1.concurrent_limit rc st1.pending_trials st1.failed_trials
  let st2 := { st1 with pending_trials := d.1, failed_trials := d.2.1 }
  let events := d.2.2.2 ++ [Event.batch_update]
  if st2.pending_trials.isEmpty && d.2.2.1 == 0 then
    ({ st2 with running := false }, events ++ [Event.batch_complete], false)
  else
    (st2, events, true)

/-- The synchronous dispatch loop inside the `POST /api/batch/start`
handler: pop the head of pending, attempt to start it, and on failure
`mark_failed` it (the pop already happened); stop once the running count
reaches the requested concurrency.  Returns the remaining pending queue,
the `started` list and the failed list. -/
def apiDispatch (ok : TrialKey → Bool) (limit : ℤ) :
    ℕ → List TrialKey → List TrialKey → List TrialKey × List TrialKey × List TrialKey
  | _, [], failed => ([], [], failed)
  | rc, t :: rest, failed =>
    if (rc : ℤ) < limit then
      if ok t then
        let r := apiDispatch ok limit (rc + 1) rest failed
        (r.1, t :: r.2.1, r.2.2)
      else
        apiDispatch ok limit rc rest
          (if t ∈ failed then failed else failed ++ [t])
    else (t :: rest, [], failed)

namespace Api

/-- The `POST /api/batch/start` handler: stop any running batch,
re-initialize the manager, then synchronously start trials up to the
concurrency limit.  `rc0` is `get_running_trial_count()` at entry and
`ok` tells which `start_single_trial` calls succeed.  Returns the new
manager state and the `started` list of the response. -/
def start_batch (ok : TrialKey → Bool) (rc0 : ℕ) (start_trial end_trial concurrent : ℤ)
    (now : String) (st : BatchState) : BatchState × List TrialKey :=
  let st0 := if st.running then BatchManager.stop_batch st else st
  let st1 := BatchManager.start_batch start_trial end_trial concurrent now st0
  let d := apiDispatch ok concurrent rc0 st1.pending_trials st1.failed_trials
  ({ st1 with pending_trials := d.1, failed_trials := d.2.2 }, d.2.1)

/-- Commands an endpoint may issue to the container backend. -/
inductive ContainerCmd
  | stopContainer (trial_id : ℤ)
  | removeContainer (trial_id : ℤ)
deriving DecidableEq

/-- The `POST /api/batch/cancel` handler: `stop_batch` plus a
`batch_cancelled` broadcast; no command is issued to any container. -/
def cancel_batch (st : BatchState) : BatchState × List ContainerCmd × List Event :=
  (BatchManager.stop_batch st, [], [Event.batch_cancelled])

end Api

/-- The operations of one batch instance's lifetime other than `start`
(which begins a new batch instance). -/
inductive BatchOp
  | cancel
  | markCompleted (t : TrialKey)
  | markFailed (t : TrialKey)
  | cycle (ok : TrialKey → Bool) (env : List ContainerInfo)

/-- Apply one lifetime operation to the manager state. -/
def applyOp : BatchOp → BatchState → BatchState
  | .cancel, st => BatchManager.stop_batch st
  | .markCompleted t, st => BatchManager.mark_completed t st
  | .markFailed t, st => BatchManager.mark_failed t st
  | .cycle ok env, st => (monitorCycle ok env st).1

/-- The queue invariant the operations maintain: the pending queue has no
duplicates and is disjoint from both terminal lists. -/
def BatchInv (st : BatchState) : Prop :=
  st.pending_trials.Nodup ∧
    st.pending_trials.Disjoint st.completed_trials ∧
      st.pending_trials.Disjoint st.failed_trials

namespace ConnectionManager

/-- `ConnectionManager.broadcast`: iterate over `active_connections` in
order, attempting `send_json` on each; `ok c` says whether the send on
connection `c` succeeds, and a failure is swallowed by the bare
`except: pass`.  Returns the (unmodified) connection list together with
the delivery attempts in order and their outcomes. -/
def broadcast (ok : ℕ → Bool) : List ℕ → List ℕ × List (ℕ × Bool)
  | [] => ([], [])
  | c :: rest =>
    let r := broadcast ok rest
    (c :: r.1, (c, ok c) :: r.2)

/-- `ConnectionManager.disconnect`: `list.remove` of one connection
(first occurrence). -/
def disconnect (c : ℕ) (conns : List ℕ) : List ℕ := conns.erase c

end ConnectionManager

/-- Strip an exact character sequence from the front of a list, returning
the remainder on success. -/
def stripPfx : List Char → List Char → Option (List Char)
  | [], l => some l
  | _ :: _, [] => none
  | p :: ps, c :: cs => if p = c then stripPfx ps cs else none

/-- Value of a run of decimal digits (`int` on the matched group). -/
def digitsToNat (ds : List Char) : ℕ :=
  ds.foldl (fun a c => 10 * a + (c.toNat - 48)) 0

/-- Python's `in` on strings: does `needle` occur as a contiguous
substring of the haystack? -/
def isSubstr (needle : List Char) : List Char → Bool
  | [] => (stripPfx needle ([] : List Char)).isSome
  | c :: rest => (stripPfx needle (c :: rest)).isSome || isSubstr needle rest

/-- Match the regex `Waypoint (\d+)/(\d+):` at the head of the input:
the literal `"Waypoint "`, a maximal non-empty digit run, `/`, a maximal
non-empty digit run, `:`.  (Maximal munch agrees with the regex here
because a digit can never satisfy the following literal.)  Returns both
numeric groups and the remainder after the match. -/
def matchWaypoint (l : List Char) : Option (ℕ × ℕ × List Char) :=
  match stripPfx "Waypoint ".data l with
  | none => none
  | some r1 =>
    let d1 := r1.takeWhile Char.isDigit
    if d1.isEmpty then none
    else
      match r1.dropWhile Char.isDigit with
      | '/' :: r3 =>
        let d2 := r3.takeWhile Char.isDigit
        if d2.isEmpty then none
        else
          match r3.dropWhile Char.isDigit with
          | ':' :: r5 => some (digitsToNat d1, digitsToNat d2, r5)
          | _ => none
      | _ => none

/-- Left-to-right non-overlapping scan of
`re.findall(r'Waypoint (\d+)/(\d+):', logs)`; the fuel starts at the
input length and dominates it throughout, so it never runs out. -/
def findWaypointsGo : ℕ → List Char → List (ℕ × ℕ)
  | 0, _ => []
  | _ + 1, [] => []
  | fuel + 1, c :: rest =>
    match matchWaypoint (c :: rest) with
    | some (a, b, rem) => (a, b) :: findWaypointsGo fuel rem
    | none => findWaypointsGo fuel rest

/-- All `Waypoint <current>/<total>:` matches of a log text, in order. -/
def findWaypoints (l : List Char) : List (ℕ × ℕ) :=
  findWaypointsGo l.length l

/-- The dictionary returned by `parse_mission_progress`. -/
structure MissionProgress where
  current_waypoint : ℕ
  total_waypoints : ℕ
  mission_complete : Bool
  progress_percent : ℚ
deriving DecidableEq

/-- `parse_mission_progress`: take the last waypoint match; its percent
is `round((current / total) * 100, 1)`, whose division is unguarded in
the source, so a last match with `total = 0` raises `ZeroDivisionError`
(embedded as `none`) before the completion-marker check is reached.
Otherwise, with no match the fields default to 0/0 and percent 0, and a
`MISSION COMPLETE!` occurrence forces `mission_complete = true` and
`progress_percent = 100`. -/
def parse_mission_progress (logs : String) : Option MissionProgress :=
  let p1? : Option MissionProgress :=
    match (findWaypoints logs.data).getLast? with
    | some (a, b) =>
      (checkedDivQ (a : ℤ) (b : ℤ)).map fun q =>
        { current_waypoint := a, total_waypoints := b, mission_complete := false,
          progress_percent := round1 (q * 100) }
    | none =>
      some { current_waypoint := 0, total_waypoints := 0,
             mission_complete := false, progress_percent := 0 }
  match p1? with
  | none => none
  | some p1 =>
    if isSubstr "MISSION COMPLETE!".data logs.data then
      some { p1 with mission_complete := true, progress_percent := 100 }
    else some p1

/-- The `cpu_percent` computation of `get_simulation_containers`:
deltas of the container and system cumulative CPU counters, the division
guarded by `system_delta > 0`; `checkedDivQ` makes any division by zero
observable as `none`. -/
def cpu_percent_calc (cpuTotal precpuTotal sysTotal presysTotal : ℤ) : Option ℚ :=
  let cpu_delta := cpuTotal - precpuTotal
  let system_delta := sysTotal - presysTotal
  if 0 < system_delta then (checkedDivQ cpu_delta system_delta).map (fun q => q * 100)
  else some 0

/-- `BASE_VNC_PORT` of `trial-vnc-proxy.py`. -/
def BASE_VNC_PORT : ℕ := 6080

/-- `extract_trial_number`: `re.match(r'trial(\d+)\.', host)` — the host
must begin with `trial`, then one or more digits, then a dot.  (Maximal
munch on the digit run agrees with the regex because a digit can never
match the following dot.) -/
def extract_trial_number (host : String) : Option ℕ :=
  match stripPfx "trial".data host.data with
  | none => none
  | some rest =>
    let ds := rest.takeWhile Char.isDigit
    if ds.isEmpty then none
    else
      match rest.dropWhile Char.isDigit with
      | '.' :: _ => some (digitsToNat ds)
      | _ => none

/-- An HTTP response: status code and body text. -/
structure HttpResponse where
  status : ℕ
  body : String
deriving DecidableEq

/-- `proxy_handler` of `trial-vnc-proxy.py`: route by the Host header.
`upstream port` is the relayed response of `http://localhost:port`, or
`none` when the connection attempt fails (`aiohttp.ClientConnectorError`).
The second component records which upstream port was attempted (`none`
when the request was rejected before any connection attempt). -/
def proxy_handler (upstream : ℕ → Option HttpResponse) (host : String) :
    HttpResponse × Option ℕ :=
  match extract_trial_number host with
  | none =>
    ({ status := 400, body := "Invalid trial URL. Use trialX.bharathdesikan.com" },
      none)
  | some n =>
    let target_port := BASE_VNC_PORT + n
    match upstream target_port with
    | some resp => (resp, some target_port)
    | none =>
      ({ status := 503,
         body := "Trial " ++ toString n ++ " VNC not running (port " ++
           toString target_port ++ ")" },
        some target_port)

/-- C7: the per-workload CPU percentage is `(delta_container_cpu /
delta_system_cpu) * 100` computed from the two cumulative counters; equal
consecutive system counters yield `0` rather than a division error, and
the division-by-zero branch is unreachable (the computation is always
`some`). -/
theorem C7_cpu_percent (cpuTotal precpuTotal sysTotal presysTotal : ℤ) :
    (cpu_percent_calc cpuTotal precpuTotal sysTotal presysTotal).isSome = true ∧
      (sysTotal = presysTotal →
        cpu_percent_calc cpuTotal precpuTotal sysTotal presysTotal = some 0) ∧
      (0 < sysTotal - presysTotal →
        cpu_percent_calc cpuTotal precpuTotal sysTotal presysTotal =
          some (((cpuTotal - precpuTotal : ℤ) : ℚ)
            / ((sysTotal - presysTotal : ℤ) : ℚ) * 100)) := by
  refine ⟨?_, ?_, ?_⟩
  · by_cases h : 0 < sysTotal - presysTotal
    · have hne : sysTotal - presysTotal ≠ 0 := by omega
      simp [cpu_percent_calc, checkedDivQ, h, hne]
    · simp [cpu_percent_calc, h]
  · intro h
    simp [cpu_percent_calc, h]
  · intro h
    have hne : sysTotal - presysTotal ≠ 0 := by omega
    simp [cpu_percent_calc, checkedDivQ, h, hne]

/-- Witness for C7 at concrete counters: equal system counters give
`some 0`, a positive system delta gives the quotient, and the result is
always present. -/
theorem C7_witness :
    cpu_percent_calc 10 4 7 7 = some 0 ∧
      cpu_percent_calc 10 4 9 7 =
        some (((10 - 4 : ℤ) : ℚ) / ((9 - 7 : ℤ) : ℚ) * 100) ∧
      (cpu_percent_calc 1 2 3 4).isSome = true :=
  ⟨(C7_cpu_percent 10 4 7 7).2.1 rfl,
    (C7_cpu_percent 10 4 9 7).2.2 (by decide),
    (C7_cpu_percent 1 2 3 4).1⟩

/-- C8: `POST /api/batch/cancel` deactivates the batch and empties the
pending queue, leaves completed and failed unchanged, issues no stop or
remove command to any container, and is idempotent on the manager
state. -/
theorem C8_cancel_frame (st : BatchState) :
    (Api.cancel_batch st).1.completed_trials = st.completed_trials ∧
      (Api.cancel_batch st).1.failed_trials = st.failed_trials ∧
      (Api.cancel_batch st).1.pending_trials = [] ∧
      (Api.cancel_batch st).1.running = false ∧
      (Api.cancel_batch st).1.active_batch = none ∧
      (Api.cancel_batch st).2.1 = [] ∧
      (Api.cancel_batch (Api.cancel_batch st).1).1 = (Api.cancel_batch st).1 :=
  ⟨rfl, rfl, rfl, rfl, rfl, rfl, rfl⟩

/-- C9: `broadcast` attempts delivery to every held observer in order;
one observer's failure is swallowed, does not prevent delivery to any
other observer, and does not remove the failed observer from the
connection list; removal happens only through `disconnect`. -/
theorem C9_broadcast (conns : List ℕ) (ok : ℕ → Bool) :
    ((ConnectionManager.broadcast ok conns).1 = conns) ∧
      ((ConnectionManager.broadcast ok conns).2.map Prod.fst = conns) ∧
      (∀ c ∈ conns, ok c = true →
        (c, true) ∈ (ConnectionManager.broadcast ok conns).2) ∧
      ∀ c : ℕ, ConnectionManager.disconnect c conns = conns.erase c := by
  refine ⟨?_, ?_, ?_, fun c => rfl⟩
  · induction conns with
    | nil => rfl
    | cons c rest ih => simp [ConnectionManager.broadcast, ih]
  · induction conns with
    | nil => rfl
    | cons c rest ih => simp [ConnectionManager.broadcast, ih]
  · induction conns with
    | nil => intro x hx; simp at hx
    | cons c rest ih =>
      intro x hx hok
      simp only [List.mem_cons] at hx
      simp only [ConnectionManager.broadcast, List.mem_cons]
      rcases hx with rfl | hx
      · left
        rw [hok]
      · right
        exact ih x hx hok

/-- Witness for C9 on two observers, the second of which fails: both are
attempted in order, the list is unchanged, and the healthy observer still
receives the event. -/
theorem C9_witness :
    ((ConnectionManager.broadcast (fun c => decide (c ≠ 9)) [5, 9]).1 = [5, 9]) ∧
      ((ConnectionManager.broadcast (fun c => decide (c ≠ 9)) [5, 9]).2.map Prod.fst
        = [5, 9]) ∧
      (5, true) ∈ (ConnectionManager.broadcast (fun c => decide (c ≠ 9)) [5, 9]).2 :=
  ⟨(C9_broadcast [5, 9] (fun c => decide (c ≠ 9))).1,
    (C9_broadcast [5, 9] (fun c => decide (c ≠ 9))).2.1,
    (C9_broadcast [5, 9] (fun c => decide (c ≠ 9))).2.2.1 5 (by decide) (by decide)⟩

/-- C4 counterexample: on `"Waypoint 5/0: MISSION COMPLETE!"` the last
waypoint match has total 0, so the unguarded percent division raises
`ZeroDivisionError` (the parser yields nothing) instead of yielding
`percent = 100, complete = true` — the marker does not override the
numeric fields unconditionally. -/
theorem C4_counterexample :
    parse_mission_progress "Waypoint 5/0: MISSION COMPLETE!" = none ∧
      parse_mission_progress "Waypoint 5/0: MISSION COMPLETE!" ≠
        some { current_waypoint := 5, total_waypoints := 0,
               mission_complete := true, progress_percent := 100 } :=
  ⟨by decide, by decide⟩

/-- C4 (amended): a log containing only `Waypoint 5/25:` yields
`{current 5, total 25, percent 20.0, complete false}`; whenever the
parser returns at all, a completion-marker occurrence forces
`percent = 100, complete = true`; with no waypoint match the parser
always returns, the numeric fields default to 0/0 and, absent the
marker, completion is false and the percent 0; the last waypoint
occurrence is the one used; and the parser returns exactly when the last
match's total is nonzero — a zero total raises `ZeroDivisionError`
before the marker check. -/
theorem C4_parse_mission_progress :
    parse_mission_progress "Waypoint 5/25:" =
        some { current_waypoint := 5, total_waypoints := 25,
               mission_complete := false, progress_percent := 20 } ∧
      (∀ (logs : String) (p : MissionProgress),
        isSubstr "MISSION COMPLETE!".data logs.data = true →
          parse_mission_progress logs = some p →
            p.mission_complete = true ∧ p.progress_percent = 100) ∧
      (∀ logs : String, findWaypoints logs.data = [] →
        ∃ p : MissionProgress, parse_mission_progress logs = some p ∧
          p.current_waypoint = 0 ∧ p.total_waypoints = 0 ∧
          (isSubstr "MISSION COMPLETE!".data logs.data = false →
            p.mission_complete = false ∧ p.progress_percent = 0)) ∧
      (∀ (logs : String) (a b : ℕ) (p : MissionProgress),
        (findWaypoints logs.data).getLast? = some (a, b) →
          parse_mission_progress logs = some p →
            p.current_waypoint = a ∧ p.total_waypoints = b) ∧
      (∀ (logs : String) (a b : ℕ),
        (findWaypoints logs.data).getLast? = some (a, b) → b ≠ 0 →
          (parse_mission_progress logs).isSome = true) ∧
      ∀ (logs : String) (a : ℕ),
        (findWaypoints logs.data).getLast? = some (a, 0) →
          parse_mission_progress logs = none := by
  refine ⟨?_, ?_, ?_, ?_, ?_, ?_⟩
  · have hw : (findWaypoints "Waypoint 5/25:".data).getLast? = some (5, 25) := by
      decide
    have hm : isSubstr "MISSION COMPLETE!".data "Waypoint 5/25:".data = false := by
      decide
    have hz : ((25 : ℕ) : ℤ) ≠ 0 := by decide
    simp only [parse_mission_progress, hw, hm, checkedDivQ, if_neg hz,
      Option.map_some', Bool.false_eq_true, if_false, Option.some.injEq,
      MissionProgress.mk.injEq]
    refine ⟨trivial, trivial, trivial, ?_⟩
    rw [show (((5 : ℕ) : ℤ) : ℚ) / (((25 : ℕ) : ℤ) : ℚ) * 100 = 20 by norm_num]
    rw [round1, show (20 : ℚ) * 10 = 200 by norm_num]
    norm_num [round_eq]
  · intro logs p hm hp
    cases hw : (findWaypoints logs.data).getLast? with
    | none =>
      simp [parse_mission_progress, hw, hm] at hp
      subst hp
      exact ⟨rfl, rfl⟩
    | some ab =>
      obtain ⟨a, b⟩ := ab
      cases hb : checkedDivQ (a : ℤ) (b : ℤ) with
      | none => simp [parse_mission_progress, hw, hb] at hp
      | some q =>
        simp [parse_mission_progress, hw, hb, hm] at hp
        subst hp
        exact ⟨rfl, rfl⟩
  · intro logs h
    have hw : (findWaypoints logs.data).getLast? = none := by simp [h]
    cases hm : isSubstr "MISSION COMPLETE!".data logs.data with
    | false =>
      refine ⟨{ current_waypoint := 0, total_waypoints := 0,
                mission_complete := false, progress_percent := 0 },
        ?_, rfl, rfl, fun _ => ⟨rfl, rfl⟩⟩
      simp [parse_mission_progress, hw, hm]
    | true =>
      refine ⟨{ current_waypoint := 0, total_waypoints := 0,
                mission_complete := true, progress_percent := 100 },
        ?_, rfl, rfl, ?_⟩
      · simp [parse_mission_progress, hw, hm]
      · intro hm2
        exact Bool.noConfusion hm2
  · intro logs a b p hw hp
    cases hb : checkedDivQ (a : ℤ) (b : ℤ) with
    | none => simp [parse_mission_progress, hw, hb] at hp
    | some q =>
      cases hm : isSubstr "MISSION COMPLETE!".data logs.data with
      | false =>
        simp [parse_mission_progress, hw, hb, hm] at hp
        subst hp
        exact ⟨rfl, rfl⟩
      | true =>
        simp [parse_mission_progress, hw, hb, hm] at hp
        subst hp
        exact ⟨rfl, rfl⟩
  · intro logs a b hw hb0
    have hbz : (b : ℤ) ≠ 0 := by exact_mod_cast hb0
    cases hm : isSubstr "MISSION COMPLETE!".data logs.data <;>
      simp [parse_mission_progress, hw, checkedDivQ, hbz, hm]
  · intro logs a hw
    simp [parse_mission_progress, hw, checkedDivQ]

/-- Witness for C4 at concrete logs: the marker alone forces completion;
a patternless log yields the defaults; with the marker present the
returned record of a two-waypoint log is explicit and carries the later
occurrence; a nonzero total returns and a zero total raises. -/
theorem C4_witness :
    parse_mission_progress "MISSION COMPLETE!"
        = some { current_waypoint := 0, total_waypoints := 0,
                 mission_complete := true, progress_percent := 100 } ∧
      parse_mission_progress "no pattern here"
        = some { current_waypoint := 0, total_waypoints := 0,
                 mission_complete := false, progress_percent := 0 } ∧
      ((⟨0, 0, true, 100⟩ : MissionProgress).mission_complete = true ∧
        (⟨0, 0, true, 100⟩ : MissionProgress).progress_percent = 100) ∧
      ((⟨5, 25, true, 100⟩ : MissionProgress).current_waypoint = 5 ∧
        (⟨5, 25, true, 100⟩ : MissionProgress).total_waypoints = 25) ∧
      (parse_mission_progress
          "Waypoint 2/25: x Waypoint 5/25: y MISSION COMPLETE!").isSome = true ∧
      parse_mission_progress "Waypoint 5/0:" = none :=
  ⟨by decide, by decide,
    C4_parse_mission_progress.2.1 "MISSION COMPLETE!"
      ⟨0, 0, true, 100⟩ (by decide) (by decide),
    C4_parse_mission_progress.2.2.2.1
      "Waypoint 2/25: x Waypoint 5/25: y MISSION COMPLETE!" 5 25
      ⟨5, 25, true, 100⟩ (by decide) (by decide),
    C4_parse_mission_progress.2.2.2.2.1
      "Waypoint 2/25: x Waypoint 5/25: y MISSION COMPLETE!" 5 25 (by decide)
      (by decide),
    C4_parse_mission_progress.2.2.2.2.2 "Waypoint 5/0:" 5 (by decide)⟩

/-- C5: host `trial7.example.com` parses to trial 7 and is routed to
upstream port `6080 + 7 = 6087` (a reachable upstream's response is
relayed); a host with no parseable trial number is rejected with a 400
client error with no upstream connection attempt; an unreachable upstream
yields a 503 service-unavailable response whose text names the attempted
port 6087. -/
theorem C5_proxy_routing (upstream : ℕ → Option HttpResponse) :
    extract_trial_number "trial7.example.com" = some 7 ∧
      extract_trial_number "notatrial.example.com" = none ∧
      ((proxy_handler upstream "notatrial.example.com").2 = none ∧
        (proxy_handler upstream "notatrial.example.com").1.status = 400) ∧
      (∀ r : HttpResponse, upstream 6087 = some r →
        proxy_handler upstream "trial7.example.com" = (r, some 6087)) ∧
      (upstream 6087 = none →
        (proxy_handler upstream "trial7.example.com").1.status = 503 ∧
          (proxy_handler upstream "trial7.example.com").2 = some 6087 ∧
          isSubstr "6087".data
            (proxy_handler upstream "trial7.example.com").1.body.data = true) := by
  have h7 : extract_trial_number "trial7.example.com" = some 7 := by decide
  have hn : extract_trial_number "notatrial.example.com" = none := by decide
  have hport : BASE_VNC_PORT + 7 = 6087 := by decide
  refine ⟨h7, hn, ?_, ?_, ?_⟩
  · simp [proxy_handler, hn]
  · intro r hr
    simp [proxy_handler, h7, hport, hr]
  · intro hr
    have hbody : proxy_handler upstream "trial7.example.com" =
        ({ status := 503, body := "Trial 7 VNC not running (port 6087)" },
          some 6087) := by
      simp only [proxy_handler, h7, hport, hr]
      decide
    rw [hbody]
    refine ⟨rfl, rfl, by decide⟩

/-- Witness for C5: concrete upstream environments — one in which port
6087 is reachable and one in which no port is reachable. -/
theorem C5_witness :
    extract_trial_number "trial7.example.com" = some 7 ∧
      extract_trial_number "notatrial.example.com" = none ∧
      (proxy_handler (fun _ => none) "notatrial.example.com").2 = none ∧
      (proxy_handler (fun _ => none) "notatrial.example.com").1.status = 400 ∧
      proxy_handler (fun _ => some { status := 200, body := "OK" })
          "trial7.example.com" = ({ status := 200, body := "OK" }, some 6087) ∧
      (proxy_handler (fun _ => none) "trial7.example.com").1.status = 503 ∧
      (proxy_handler (fun _ => none) "trial7.example.com").2 = some 6087 ∧
      isSubstr "6087".data
        (proxy_handler (fun _ => none) "trial7.example.com").1.body.data = true :=
  ⟨(C5_proxy_routing (fun _ => none)).1,
    (C5_proxy_routing (fun _ => none)).2.1,
    (C5_proxy_routing (fun _ => none)).2.2.1.1,
    (C5_proxy_routing (fun _ => none)).2.2.1.2,
    (C5_proxy_routing (fun _ => some { status := 200, body := "OK" })).2.2.2.1
      { status := 200, body := "OK" } rfl,
    ((C5_proxy_routing (fun _ => none)).2.2.2.2 rfl).1,
    ((C5_proxy_routing (fun _ => none)).2.2.2.2 rfl).2.1,
    ((C5_proxy_routing (fun _ => none)).2.2.2.2 rfl).2.2⟩

lemma rangeList_length (s e : ℤ) : (rangeList s e).length = (e + 1 - s).toNat := by
  rw [rangeList, List.length_map, List.length_range]

lemma rangeList_nodup (s e : ℤ) : (rangeList s e).Nodup := by
  refine List.Nodup.map ?_ (List.nodup_range _)
  intro a b h
  have h2 : (a : ℤ) = b := add_left_cancel h
  exact_mod_cast h2

lemma rangeList_sorted (s e : ℤ) : List.Sorted (· < ·) (rangeList s e) := by
  have h : List.Pairwise (· < ·)
      ((List.range (e + 1 - s).toNat).map (fun i : ℕ => s + (i : ℤ))) := by
    rw [List.pairwise_map]
    refine (List.pairwise_lt_range _).imp ?_
    intro a b hab
    omega
  exact h

lemma drop_min_length {α : Type} (l : List α) (n : ℕ) :
    l.drop (min n l.length) = l.drop n := by
  rcases le_total n l.length with h | h
  · rw [min_eq_left h]
  · rw [min_eq_right h, List.drop_length, List.drop_eq_nil_of_le h]

lemma apiDispatch_all_ok (limit : ℤ) (l : List TrialKey) :
    ∀ (rc : ℕ) (failed : List TrialKey),
      apiDispatch (fun _ => true) limit rc l failed =
        (l.drop (limit - rc).toNat, l.take (limit - rc).toNat, failed) := by
  induction l with
  | nil => intro rc failed; simp [apiDispatch]
  | cons t rest ih =>
    intro rc failed
    by_cases h : (rc : ℤ) < limit
    · have hk : (limit - rc).toNat = (limit - (rc + 1 : ℕ)).toNat + 1 := by
        push_cast
        omega
      simp [apiDispatch, h, ih (rc + 1), hk]
    · have hk : (limit - rc).toNat = 0 := by omega
      simp [apiDispatch, h, hk]

/-- C1: immediately after `POST /api/batch/start` on range `[s, e]` with
`s ≤ e` and concurrency `c ≥ 1`, starting from an idle fleet
(`get_running_trial_count() = 0`) in which every container start
succeeds, the number of trials dispatched by the call is exactly
`min c (e - s + 1)`, and pending holds exactly the integer keys of the
remaining identifiers of the range, whose underlying identifier list is
ascending. -/
theorem C1_start_batch_dispatch (s e c : ℤ) (now : String) (st : BatchState)
    (hse : s ≤ e) (hc : 1 ≤ c) :
    ((Api.start_batch (fun _ => true) 0 s e c now st).2.length : ℤ)
        = min c (e - s + 1) ∧
      (Api.start_batch (fun _ => true) 0 s e c now st).1.pending_trials
        = ((rangeList s e).drop
            (Api.start_batch (fun _ => true) 0 s e c now st).2.length).map
            TrialKey.intId ∧
      List.Sorted (· < ·)
        ((rangeList s e).drop
          (Api.start_batch (fun _ => true) 0 s e c now st).2.length) := by
  have hd : apiDispatch (fun _ => true) c 0 ((rangeList s e).map TrialKey.intId) [] =
      (((rangeList s e).map TrialKey.intId).drop c.toNat,
        ((rangeList s e).map TrialKey.intId).take c.toNat, []) := by
    simpa using apiDispatch_all_ok c ((rangeList s e).map TrialKey.intId) 0 []
  have hfst : (Api.start_batch (fun _ => true) 0 s e c now st).1.pending_trials
      = ((rangeList s e).map TrialKey.intId).drop c.toNat := by
    simp [Api.start_batch, BatchManager.start_batch, hd]
  have hsnd : (Api.start_batch (fun _ => true) 0 s e c now st).2
      = ((rangeList s e).map TrialKey.intId).take c.toNat := by
    simp [Api.start_batch, BatchManager.start_batch, hd]
  refine ⟨?_, ?_, ?_⟩
  · rw [hsnd, List.length_take, List.length_map, rangeList_length]
    have h1 : ((c.toNat : ℤ)) = c := Int.toNat_of_nonneg (by omega)
    have h2 : (((e + 1 - s).toNat : ℤ)) = e + 1 - s := Int.toNat_of_nonneg (by omega)
    push_cast
    omega
  · rw [hfst, hsnd, List.length_take, List.length_map, drop_min_length,
      List.map_drop]
  · rw [hsnd, List.length_take, List.length_map, drop_min_length]
    exact List.Pairwise.sublist (List.drop_sublist _ _) (rangeList_sorted s e)

/-- Witness for C1 on the range `[1, 5]` with concurrency 2: two trials
dispatched, `[3, 4, 5]` left pending in ascending order. -/
theorem C1_witness :
    ((Api.start_batch (fun _ => true) 0 1 5 2 "t" BatchState.initial).2.length : ℤ)
        = min 2 (5 - 1 + 1) ∧
      (Api.start_batch (fun _ => true) 0 1 5 2 "t" BatchState.initial).1.pending_trials
        = ((rangeList 1 5).drop
            (Api.start_batch (fun _ => true) 0 1 5 2 "t" BatchState.initial).2.length).map
            TrialKey.intId ∧
      List.Sorted (· < ·)
        ((rangeList 1 5).drop
          (Api.start_batch (fun _ => true) 0 1 5 2 "t" BatchState.initial).2.length) :=
  C1_start_batch_dispatch 1 5 2 "t" BatchState.initial (by decide) (by decide)

/-- C10: `start_batch` accepts a range with `end = start - 1` and records
it as an active batch with `total = 0`, making the division-by-zero
branch of the status query reachable; conversely the status query never
raises when every recorded batch has nonzero total. -/
theorem C10_status_division_reachable :
    (∀ (s c : ℤ) (now : String) (st : BatchState) (ok : TrialKey → Bool) (rc0 : ℕ),
        (Api.start_batch ok rc0 s (s - 1) c now st).1.active_batch.isSome = true ∧
          (Api.start_batch ok rc0 s (s - 1) c now st).1.running = true ∧
          BatchManager.get_status (Api.start_batch ok rc0 s (s - 1) c now st).1
            = .divisionError) ∧
      ∀ st : BatchState,
        (∀ b : BatchMeta, st.active_batch = some b → b.total ≠ 0) →
          BatchManager.get_status st ≠ .divisionError := by
  constructor
  · intro s c now st ok rc0
    refine ⟨rfl, rfl, ?_⟩
    simp [Api.start_batch, BatchManager.start_batch, BatchManager.get_status,
      show s - 1 - s + 1 = (0 : ℤ) by ring]
  · intro st h
    cases hab : st.active_batch with
    | none => simp [BatchManager.get_status, hab]
    | some b =>
      have hb := h b hab
      simp [BatchManager.get_status, hab, hb]

/-- Witness for C10: starting the degenerate batch `[5, 4]` leaves an
active batch whose status query divides by zero, while the empty manager
state never reaches the division. -/
theorem C10_witness :
    ((Api.start_batch (fun _ => true) 0 5 (5 - 1) 3 "t" BatchState.initial).1.active_batch.isSome
          = true ∧
        (Api.start_batch (fun _ => true) 0 5 (5 - 1) 3 "t" BatchState.initial).1.running
          = true ∧
        BatchManager.get_status
            (Api.start_batch (fun _ => true) 0 5 (5 - 1) 3 "t" BatchState.initial).1
          = .divisionError) ∧
      BatchManager.get_status BatchState.initial ≠ .divisionError :=
  ⟨C10_status_division_reachable.1 5 3 "t" BatchState.initial (fun _ => true) 0,
    C10_status_division_reachable.2 BatchState.initial
      (fun b hb => by simp [BatchState.initial] at hb)⟩

/-- C3 counterexample: with no active batch, `get_status` returns only
`{"active": False}`; the returned document carries no `progress` field at
all, so the claim that "the progress reported is 0" is false — nothing is
reported. -/
theorem C3_counterexample :
    progressOf (BatchManager.get_status BatchState.initial) = none ∧
      progressOf (BatchManager.get_status BatchState.initial) ≠ some 0 := by
  refine ⟨rfl, ?_⟩
  simp [BatchState.initial, BatchManager.get_status, progressOf]

/-- C3 (amended): for an active batch with nonzero total, the status
query returns the full document — active flag, batch metadata, pending
count, first 10 pending identifiers, full completed and failed lists with
counts, and progress `(|completed| + |failed|) / total * 100` rounded to
one decimal; when no batch is active the query returns the bare
`{"active": False}` document, which contains no progress field. -/
theorem C3_status_document :
    (∀ (st : BatchState) (b : BatchMeta), st.active_batch = some b → b.total ≠ 0 →
        ∃ d : StatusDoc, BatchManager.get_status st = .doc d ∧
          d.active = st.running ∧
          d.batch = b ∧
          d.pending = st.pending_trials.length ∧
          d.pending_trials = st.pending_trials.take 10 ∧
          d.completed = st.completed_trials.length ∧
          d.completed_trials = st.completed_trials ∧
          d.failed = st.failed_trials.length ∧
          d.failed_trials = st.failed_trials ∧
          d.progress = round1
            (((st.completed_trials.length + st.failed_trials.length : ℕ) : ℚ)
              / (b.total : ℚ) * 100)) ∧
      ∀ st : BatchState, st.active_batch = none →
        BatchManager.get_status st = .inactive ∧
          progressOf (BatchManager.get_status st) = none := by
  constructor
  · intro st b hab hb
    refine ⟨{ active := st.running, batch := b,
                pending := st.pending_trials.length,
                pending_trials := st.pending_trials.take 10,
                completed := st.completed_trials.length,
                completed_trials := st.completed_trials,
                failed := st.failed_trials.length,
                failed_trials := st.failed_trials,
                progress := round1
                  (((st.completed_trials.length + st.failed_trials.length : ℕ) : ℚ)
                    / (b.total : ℚ) * 100) },
      ?_, rfl, rfl, rfl, rfl, rfl, rfl, rfl, rfl, rfl⟩
    simp [BatchManager.get_status, hab, hb]
  · intro st hab
    simp [BatchManager.get_status, hab, progressOf]

/-- Witness for C3 on the batch `[0, 1]` with concurrency 2 (total 2),
and on the empty manager state. -/
theorem C3_witness :
    (∃ d : StatusDoc,
        BatchManager.get_status (BatchManager.start_batch 0 1 2 "t" BatchState.initial)
            = .doc d ∧
          d.active = (BatchManager.start_batch 0 1 2 "t" BatchState.initial).running ∧
          d.batch = { start_trial := 0, end_trial := 1, concurrent := 2,
                      total := 1 - 0 + 1, started_at := "t" } ∧
          d.pending
            = (BatchManager.start_batch 0 1 2 "t" BatchState.initial).pending_trials.length ∧
          d.pending_trials
            = (BatchManager.start_batch 0 1 2 "t" BatchState.initial).pending_trials.take 10 ∧
          d.completed
            = (BatchManager.start_batch 0 1 2 "t" BatchState.initial).completed_trials.length ∧
          d.completed_trials
            = (BatchManager.start_batch 0 1 2 "t" BatchState.initial).completed_trials ∧
          d.failed
            = (BatchManager.start_batch 0 1 2 "t" BatchState.initial).failed_trials.length ∧
          d.failed_trials
            = (BatchManager.start_batch 0 1 2 "t" BatchState.initial).failed_trials ∧
          d.progress = round1
            ((((BatchManager.start_batch 0 1 2 "t" BatchState.initial).completed_trials.length
                  + (BatchManager.start_batch 0 1 2 "t" BatchState.initial).failed_trials.length : ℕ) : ℚ)
              / (((1 : ℤ) - 0 + 1 : ℤ) : ℚ) * 100)) ∧
      (BatchManager.get_status BatchState.initial = .inactive ∧
        progressOf (BatchManager.get_status BatchState.initial) = none) :=
  ⟨C3_status_document.1 (BatchManager.start_batch 0 1 2 "t" BatchState.initial)
      { start_trial := 0, end_trial := 1, concurrent := 2,
          total := 1 - 0 + 1, started_at := "t" } rfl (by decide),
    C3_status_document.2 BatchState.initial rfl⟩

lemma erase_guard_subset {α : Type} [DecidableEq α] (t : α) (l : List α) :
    (if t ∈ l then l.erase t else l) ⊆ l := by
  split
  · apply List.erase_subset
  · exact fun x hx => hx

lemma nodup_after_erase_guard {α : Type} [DecidableEq α] (t : α) (l : List α)
    (h : l.Nodup) :
    (if t ∈ l then l.erase t else l).Nodup := by
  split
  · exact h.erase t
  · exact h

lemma disjoint_after_mark {α : Type} [DecidableEq α] {p cmp : List α} (t : α)
    (hnd : p.Nodup)
    (hdisj : p.Disjoint cmp) :
    (if t ∈ p then p.erase t else p).Disjoint
      (if t ∈ cmp then cmp else cmp ++ [t]) := by
  intro x hx hx'
  have hxp : x ∈ p ∧ x ≠ t := by
    by_cases hp : t ∈ p
    · rw [if_pos hp] at hx
      have h2 := (List.Nodup.mem_erase_iff hnd).mp hx
      exact ⟨h2.2, h2.1⟩
    · rw [if_neg hp] at hx
      exact ⟨hx, fun he => hp (he ▸ hx)⟩
  by_cases hcm : t ∈ cmp
  · rw [if_pos hcm] at hx'
    exact hdisj hxp.1 hx'
  · rw [if_neg hcm] at hx'
    rcases List.mem_append.mp hx' with h | h
    · exact hdisj hxp.1 h
    · exact hxp.2 (List.mem_singleton.mp h)

lemma mark_completed_pending_subset (t : TrialKey) (st : BatchState) :
    (BatchManager.mark_completed t st).pending_trials ⊆ st.pending_trials :=
  erase_guard_subset t st.pending_trials

lemma mark_failed_pending_subset (t : TrialKey) (st : BatchState) :
    (BatchManager.mark_failed t st).pending_trials ⊆ st.pending_trials :=
  erase_guard_subset t st.pending_trials

lemma mark_completed_inv (t : TrialKey) (st : BatchState) (h : BatchInv st) :
    BatchInv (BatchManager.mark_completed t st) := by
  obtain ⟨hnd, hc, hf⟩ := h
  exact ⟨nodup_after_erase_guard t _ hnd, disjoint_after_mark t hnd hc,
    List.disjoint_of_subset_left (erase_guard_subset t _) hf⟩

lemma mark_failed_inv (t : TrialKey) (st : BatchState) (h : BatchInv st) :
    BatchInv (BatchManager.mark_failed t st) := by
  obtain ⟨hnd, hc, hf⟩ := h
  exact ⟨nodup_after_erase_guard t _ hnd,
    List.disjoint_of_subset_left (erase_guard_subset t _) hc,
    disjoint_after_mark t hnd hf⟩

lemma stop_batch_inv (st : BatchState) : BatchInv (BatchManager.stop_batch st) :=
  ⟨List.nodup_nil, fun x hx => absurd hx (List.not_mem_nil x),
    fun x hx => absurd hx (List.not_mem_nil x)⟩

lemma classifyExited_cons (c : ContainerInfo) (env : List ContainerInfo)
    (st : BatchState) :
    classifyExited (c :: env) st = classifyExited env
      (if c.status == "exited" then
        (if c.hasData then BatchManager.mark_completed (TrialKey.strId c.trial_id) st
         else BatchManager.mark_failed (TrialKey.strId c.trial_id) st)
       else st) := rfl

lemma classifyExited_pending_subset (env : List ContainerInfo) :
    ∀ st : BatchState, (classifyExited env st).pending_trials ⊆ st.pending_trials := by
  induction env with
  | nil => intro st; exact fun x hx => hx
  | cons c rest ih =>
    intro st
    rw [classifyExited_cons]
    refine (ih _).trans ?_
    split
    · split
      · exact erase_guard_subset _ _
      · exact erase_guard_subset _ _
    · exact fun x hx => hx

lemma classifyExited_inv (env : List ContainerInfo) :
    ∀ st : BatchState, BatchInv st → BatchInv (classifyExited env st) := by
  induction env with
  | nil => intro st h; exact h
  | cons c rest ih =>
    intro st h
    rw [classifyExited_cons]
    apply ih
    split
    · split
      · exact mark_completed_inv _ _ h
      · exact mark_failed_inv _ _ h
    · exact h

lemma monitorDispatch_spec (ok : TrialKey → Bool) (limit : ℤ) :
    ∀ (pending : List TrialKey) (rc : ℕ) (failed : List TrialKey),
      pending.Nodup → pending.Disjoint failed →
        (monitorDispatch ok limit rc pending failed).1.Nodup ∧
          (monitorDispatch ok limit rc pending failed).1.Disjoint
            (monitorDispatch ok limit rc pending failed).2.1 ∧
          (monitorDispatch ok limit rc pending failed).1 ⊆ pending := by
  intro pending
  induction pending with
  | nil =>
    intro rc failed hnd hdis
    exact ⟨List.nodup_nil, fun x hx => absurd hx (List.not_mem_nil x),
      fun x hx => hx⟩
  | cons t rest ih =>
    intro rc failed hnd hdis
    by_cases hlt : (rc : ℤ) < limit
    · cases hok : ok t with
      | true =>
        have heq : monitorDispatch ok limit rc (t :: rest) failed =
            ((monitorDispatch ok limit (rc + 1) rest failed).1,
              (monitorDispatch ok limit (rc + 1) rest failed).2.1,
              (monitorDispatch ok limit (rc + 1) rest failed).2.2.1,
              Event.trial_started t ::
                (monitorDispatch ok limit (rc + 1) rest failed).2.2.2) := by
          simp [monitorDispatch, hlt, hok]
        have hdis2 : rest.Disjoint failed :=
          fun x hx hx' => hdis (List.mem_cons_of_mem _ hx) hx'
        have hrec := ih (rc + 1) failed hnd.of_cons hdis2
        rw [heq]
        exact ⟨hrec.1, hrec.2.1, hrec.2.2.trans (List.subset_cons_self _ _)⟩
      | false =>
        have heq : monitorDispatch ok limit rc (t :: rest) failed =
            monitorDispatch ok limit rc rest
              (if t ∈ failed then failed else failed ++ [t]) := by
          simp [monitorDispatch, hlt, hok]
        have hdis2 : rest.Disjoint (if t ∈ failed then failed else failed ++ [t]) := by
          intro x hx hx'
          have hxt : x ≠ t := fun he => (List.nodup_cons.mp hnd).1 (he ▸ hx)
          have hxf : x ∉ failed := fun hin => hdis (List.mem_cons_of_mem _ hx) hin
          by_cases htf : t ∈ failed
          · rw [if_pos htf] at hx'
            exact hxf hx'
          · rw [if_neg htf] at hx'
            rcases List.mem_append.mp hx' with h | h
            · exact hxf h
            · exact hxt (List.mem_singleton.mp h)
        have hrec := ih rc _ hnd.of_cons hdis2
        rw [heq]
        exact ⟨hrec.1, hrec.2.1, hrec.2.2.trans (List.subset_cons_self _ _)⟩
    · have heq : monitorDispatch ok limit rc (t :: rest) failed =
          (t :: rest, failed, rc, []) := by
        simp [monitorDispatch, hlt]
      rw [heq]
      exact ⟨hnd, hdis, fun x hx => hx⟩

lemma monitorCycle_fields (ok : TrialKey → Bool) (env : List ContainerInfo)
    (st : BatchState) :
    (monitorCycle ok env st).1.pending_trials =
        (monitorDispatch ok (classifyExited env st).concurrent_limit
          (runningCount env) (classifyExited env st).pending_trials
          (classifyExited env st).failed_trials).1 ∧
      (monitorCycle ok env st).1.completed_trials
        = (classifyExited env st).completed_trials ∧
      (monitorCycle ok env st).1.failed_trials =
        (monitorDispatch ok (classifyExited env st).concurrent_limit
          (runningCount env) (classifyExited env st).pending_trials
          (classifyExited env st).failed_trials).2.1 := by
  refine ⟨?_, ?_, ?_⟩ <;> (simp only [monitorCycle]; split <;> rfl)

lemma monitorCycle_inv (ok : TrialKey → Bool) (env : List ContainerInfo)
    (st : BatchState) (h : BatchInv st) :
    BatchInv (monitorCycle ok env st).1 ∧
      (monitorCycle ok env st).1.pending_trials ⊆ st.pending_trials := by
  obtain ⟨hnd1, hc1, hf1⟩ := classifyExited_inv env st h
  have hsub1 := classifyExited_pending_subset env st
  have hd := monitorDispatch_spec ok (classifyExited env st).concurrent_limit
    (classifyExited env st).pending_trials (runningCount env)
    (classifyExited env st).failed_trials hnd1 hf1
  obtain ⟨hfld1, hfld2, hfld3⟩ := monitorCycle_fields ok env st
  constructor
  · refine ⟨?_, ?_, ?_⟩
    · rw [hfld1]
      exact hd.1
    · rw [hfld1, hfld2]
      exact List.disjoint_of_subset_left hd.2.2 hc1
    · rw [hfld1, hfld3]
      exact hd.2.1
  · rw [hfld1]
    exact hd.2.2.trans hsub1

/-- C2 counterexample.  (i) From a fresh one-trial batch, `mark_failed`
then `mark_completed` of the same integer id — both operations the claim
quantifies over — leaves trial 1 in `completed_trials` and in
`failed_trials` simultaneously, so `completed ∩ failed = ∅` fails.
(ii) The reconciliation classification hands the mark operations the
container-name suffix string, so one cycle over a stale exited container
whose numeric id is still pending (here with the concurrency limit
exhausted, `concurrent = 0`) appends the string `"5"` to failed while
the integer 5 stays in pending: at the trial-identifier level
`pending ∩ failed = ∅` fails as well, and the identifier was never
removed from pending by its classification. -/
theorem C2_counterexample :
    (TrialKey.intId 1 ∈ (applyOp (.markCompleted (.intId 1))
          (applyOp (.markFailed (.intId 1))
            (BatchManager.start_batch 1 1 3 "t0" BatchState.initial))).completed_trials ∧
        TrialKey.intId 1 ∈ (applyOp (.markCompleted (.intId 1))
          (applyOp (.markFailed (.intId 1))
            (BatchManager.start_batch 1 1 3 "t0" BatchState.initial))).failed_trials) ∧
      TrialKey.intId 5 ∈ (applyOp
          (.cycle (fun _ => true)
            [{ trial_id := "5", status := "exited", hasData := false }])
          (BatchManager.start_batch 5 5 0 "t0" BatchState.initial)).pending_trials ∧
      TrialKey.strId "5" ∈ (applyOp
          (.cycle (fun _ => true)
            [{ trial_id := "5", status := "exited", hasData := false }])
          (BatchManager.start_batch 5 5 0 "t0" BatchState.initial)).failed_trials := by
  decide

/-- C2 (amended): as lists of Python values, `start` establishes and
every lifetime operation (cancel, mark-completed, mark-failed, each
reconciliation cycle) preserves: pending is duplicate-free and disjoint
from completed and from failed, and pending only ever shrinks, so a value
removed from pending never returns for the same batch instance.  Two
parts of the original claim fail (see the counterexample): completed and
failed need not stay disjoint, and — because the classification pass
hands the mark operations the name-suffix string, never the parsed
integer — a trial identifier can sit in pending as an integer while its
string form sits in failed. -/
theorem C2_queue_invariant :
    (∀ (s e c : ℤ) (now : String) (st : BatchState),
        BatchInv (BatchManager.start_batch s e c now st)) ∧
      ∀ (op : BatchOp) (st : BatchState), BatchInv st →
        BatchInv (applyOp op st) ∧
          (applyOp op st).pending_trials ⊆ st.pending_trials := by
  constructor
  · intro s e c now st
    exact ⟨List.Nodup.map (fun a b h => TrialKey.intId.inj h) (rangeList_nodup s e),
      fun x hx hx' => absurd hx' (List.not_mem_nil x),
      fun x hx hx' => absurd hx' (List.not_mem_nil x)⟩
  · intro op st h
    cases op with
    | cancel =>
      exact ⟨stop_batch_inv st, fun x hx => absurd hx (List.not_mem_nil x)⟩
    | markCompleted t =>
      exact ⟨mark_completed_inv t st h, mark_completed_pending_subset t st⟩
    | markFailed t =>
      exact ⟨mark_failed_inv t st h, mark_failed_pending_subset t st⟩
    | cycle ok env =>
      exact monitorCycle_inv ok env st h

/-- Witness for C2: the invariant holds of a freshly started batch and is
preserved (with pending only shrinking) by a `mark_failed` operation on
it. -/
theorem C2_witness :
    BatchInv (applyOp (.markFailed (.intId 2)) (BatchManager.start_batch 1 3 2 "t0"
        BatchState.initial)) ∧
      (applyOp (.markFailed (.intId 2))
          (BatchManager.start_batch 1 3 2 "t0" BatchState.initial)).pending_trials
        ⊆ (BatchManager.start_batch 1 3 2 "t0" BatchState.initial).pending_trials :=
  C2_queue_invariant.2 (.markFailed (.intId 2))
    (BatchManager.start_batch 1 3 2 "t0" BatchState.initial)
    (C2_queue_invariant.1 1 3 2 "t0" BatchState.initial)

/-- C6: a reconciliation cycle executed on an active batch whose pending
queue is empty, against a fleet with no running owned workload, clears
the active flag, broadcasts exactly one terminal `batch_complete` event,
breaks out of the loop, and leaves a state whose loop guard is false
against every fleet, so no further cycle runs for this batch instance. -/
theorem C6_terminal_cycle (ok : TrialKey → Bool) (env : List ContainerInfo)
    (st : BatchState) (hrun : st.running = true) (hp : st.pending_trials = [])
    (henv : ∀ c ∈ env, c.status ≠ "running") :
    (monitorCycle ok env st).1.running = false ∧
      (monitorCycle ok env st).2.1.count Event.batch_complete = 1 ∧
      (monitorCycle ok env st).2.2 = false ∧
      ∀ env' : List ContainerInfo,
        monitorGate (monitorCycle ok env st).1 env' = false := by
  have hrc : runningCount env = 0 := by
    unfold runningCount
    rw [List.length_eq_zero, List.filter_eq_nil_iff]
    intro c hc
    simp [henv c hc]
  have hcl : (classifyExited env st).pending_trials = [] := by
    have hsub := classifyExited_pending_subset env st
    rw [hp] at hsub
    exact List.subset_nil.mp hsub
  have hd0 : monitorDispatch ok (classifyExited env st).concurrent_limit
      0 (classifyExited env st).pending_trials
      (classifyExited env st).failed_trials
      = ([], (classifyExited env st).failed_trials, 0, []) := by
    rw [hcl]
    rfl
  have hcycle : monitorCycle ok env st =
      ({ classifyExited env st with
          pending_trials := ([] : List TrialKey), running := false },
        [Event.batch_update, Event.batch_complete], false) := by
    simp only [monitorCycle, hrc, hd0]
    simp
  rw [hcycle]
  refine ⟨rfl, rfl, rfl, ?_⟩
  intro env'
  simp [monitorGate]

/-- A concrete one-container fleet (an exited trial with data) for the
terminal-cycle witness. -/
def c6Env : List ContainerInfo :=
  [{ trial_id := "1", status := "exited", hasData := true }]

/-- A concrete active batch state with empty pending queue for the
terminal-cycle witness. -/
def c6State : BatchState :=
  { active_batch := some
      { start_trial := 1, end_trial := 1, concurrent := 3,
        total := 1, started_at := "t" },
    pending_trials := [], completed_trials := [], failed_trials := [],
    concurrent_limit := 3, running := true }

/-- Witness for C6: one cycle on the concrete state clears the flag,
emits one `batch_complete`, breaks, and leaves the guard false. -/
theorem C6_witness :
    (monitorCycle (fun _ => true) c6Env c6State).1.running = false ∧
      (monitorCycle (fun _ => true) c6Env c6State).2.1.count Event.batch_complete
        = 1 ∧
      (monitorCycle (fun _ => true) c6Env c6State).2.2 = false ∧
      monitorGate (monitorCycle (fun _ => true) c6Env c6State).1 [] = false := by
  have h := C6_terminal_cycle (fun _ => true) c6Env c6State rfl rfl (by decide)
  exact ⟨h.1, h.2.1, h.2.2.1, h.2.2.2 []⟩
